import Mathlib

/-!
# Firebird QML bridge: kit selection, session control and input routing

A shallow embedding of `src/qmlbridge.cpp`.  Stateful member functions become
functions from the bridge state and the session state to a `Result` holding the
returned value, both states afterwards, and the calls the function made on
its collaborators (toast, emulation thread, signals), in program order.

Collaborators that are not defined in `qmlbridge.cpp` (the emulation thread's
`stop`, `start`, `suspend`; the constants `KEYPAD_ROWS` and `KEYPAD_COLS`) are
parameters of the functions that use them.
-/

namespace Firebird

/-! ## Data model -/

/-- An opaque `QObject *` handle of a UI element; only identity matters. -/
abbrev QObjectPtr := Nat

/-- Modelled from the spec: `struct Kit` (declared in `kitmodel.h`): an integer
id, a display name, and the boot-image, flash-image and snapshot-file paths. -/
structure Kit where
  id : Nat
  name : String
  boot1 : String
  flash : String
  snapshot : String
  deriving DecidableEq, Repr

/-- Modelled from the spec: `class KitModel` (declared in `kitmodel.h`): the
ordered sequence of kits and the counter from which ids are issued. -/
structure KitModel where
  kits : List Kit
  nextID : Nat
  deriving DecidableEq, Repr

/-- Modelled from the spec: `class EmuThread` (declared in `emuthread.h`),
reduced to the members `qmlbridge.cpp` reads or writes: the fields `boot1`,
`flash`, `port_gdb`, `port_rdbg`, and `running`, which is what
`emu_thread.isRunning()` reports. -/
structure EmuThread where
  running : Bool
  boot1 : String
  flash : String
  port_gdb : Nat
  port_rdbg : Nat
  deriving DecidableEq, Repr

/-- The member functions of `EmuThread` called by the bridge (`stop` returns
its success flag).  Their bodies are in `emuthread.cpp`, so they are arbitrary
functions on the session here. -/
structure EmuOps where
  stop : EmuThread → Bool × EmuThread
  start : EmuThread → EmuThread
  suspend : String → EmuThread → EmuThread

/-- The members of `QMLBridge` (declared in `qmlbridge.h`) that the modelled
member functions read or write; `toast` is `none` for the null pointer. -/
structure QMLBridge where
  kit_model : KitModel
  current_kit_id : Nat
  default_kit_id : Nat
  fallback_snapshot_path : String
  gdb_enabled : Bool
  gdb_port : Nat
  rdb_enabled : Bool
  rdb_port : Nat
  toast : Option QObjectPtr
  deriving DecidableEq, Repr

/-- A call the bridge makes on one of its collaborators. -/
inductive Event where
  | toastShown (toast : QObjectPtr) (msg : String)
  | noToastWarning
  | emuStop
  | emuStart
  | emuSuspend (path : String)
  | currentKitChanged (kit : Kit)
  deriving DecidableEq, Repr

/-- What a member function leaves behind: its return value, the bridge and
the session afterwards, and the calls it made, in order. -/
structure Result (α : Type) where
  ret : α
  bridge : QMLBridge
  emu : EmuThread
  events : List Event

/-- Number of `emu_thread.start()` calls in a trace. -/
def startCalls (evs : List Event) : Nat :=
  evs.count Event.emuStart

/-- The `emu_thread.suspend(path)` calls in a trace, in order. -/
def suspendCalls : List Event → List String
  | [] => []
  | Event.emuSuspend p :: rest => p :: suspendCalls rest
  | _ :: rest => suspendCalls rest

/-! ## Kit registry -/

/-- Position of the first kit with the given id, as an index into `kits`. -/
def findKitRow (id : Nat) : (kits : List Kit) → Option (Fin kits.length)
  | [] => none
  | k :: rest =>
    if k.id = id then some ⟨0, Nat.succ_pos _⟩
    else (findKitRow id rest).map Fin.succ

/-- Modelled from the spec: `KitModel::indexForID` (defined in `kitmodel.cpp`):
"lookup; fails (returns an explicit not-found sentinel) if absent".  A valid
`QModelIndex` is a row inside the kit list; the invalid one is `none`. -/
def KitModel.indexForID (m : KitModel) (id : Nat) : Option (Fin m.kits.length) :=
  findKitRow id m.kits

/-- Modelled from the spec: `KitModel::getKits` (defined in `kitmodel.cpp`): a
read-only view of the ordered kit sequence. -/
def KitModel.getKits (m : KitModel) : List Kit :=
  m.kits

/-- Modelled from the spec: `KitModel::rowCount` (defined in `kitmodel.cpp`). -/
def KitModel.rowCount (m : KitModel) : Nat :=
  m.kits.length

/-- Modelled from the spec: `KitModel::addKit` (defined in `kitmodel.cpp`):
"appends a kit with a freshly issued unique ID; always succeeds". -/
def KitModel.addKit (m : KitModel) (name boot1 flash snapshot : String) : KitModel :=
  { kits := m.kits ++ [{ id := m.nextID, name := name, boot1 := boot1,
                         flash := flash, snapshot := snapshot }],
    nextID := m.nextID + 1 }

/-! ## Settings store and construction -/

/-- A value held by the settings store (`QVariant`). -/
inductive QVariant where
  | invalid
  | str (s : String)
  | bool (b : Bool)
  | int (n : Int)
  | kits (m : KitModel)

/-- The key-value settings store (`QSettings`); `none` is a missing key. -/
abbrev QSettings := String → Option QVariant

/-- Membership test `settings.contains(key)`. -/
def QSettings.contains (s : QSettings) (key : String) : Bool :=
  (s key).isSome

/-- Lookup `settings.value(key)`: an invalid variant when the key is missing. -/
def QSettings.value (s : QSettings) (key : String) : QVariant :=
  (s key).getD QVariant.invalid

/-- Store `settings.setValue(key, v)`. -/
def QSettings.setValue (s : QSettings) (key : String) (v : QVariant) : QSettings :=
  fun k => if k = key then some v else s k

/-- Conversion `QVariant::toString()`: the empty string for an invalid variant
or one holding a kit collection. -/
def QVariant.toString : QVariant → String
  | QVariant.str s => s
  | QVariant.bool b => if b then "true" else "false"
  | QVariant.int n => ToString.toString n
  | _ => ""

/-- Conversion `QVariant::value<KitModel>()`: a default-constructed (empty)
model when the variant holds something else. -/
def QVariant.toKitModel : QVariant → KitModel
  | QVariant.kits m => m
  | _ => { kits := [], nextID := 0 }

/-- The part of the constructor `QMLBridge::QMLBridge` that migrates the old
USB directory key and loads the kit registry; `kit_model` starts
default-constructed.  Returns the settings and the registry afterwards. -/
def QMLBridge.ctorKits (settings : QSettings) : QSettings × KitModel :=
  let settings :=
    if settings.contains "usbdir" && !settings.contains "usbdirNew" then
      settings.setValue "usbdirNew"
        (QVariant.str ("/" ++ (settings.value "usbdir").toString))
    else settings
  let kit_model : KitModel := { kits := [], nextID := 0 }
  let loaded : Bool × KitModel :=
    if !settings.contains "kits" then
      (true, kit_model)
    else
      let kit_model := (settings.value "kits").toKitModel
      if kit_model.rowCount = 0 then (true, kit_model) else (false, kit_model)
  let add_default_kit := loaded.1
  let kit_model := loaded.2
  if add_default_kit then
    (settings, kit_model.addKit "Default"
                (settings.value "boot1").toString
                (settings.value "flash").toString
                (settings.value "snapshotPath").toString)
  else (settings, kit_model)

/-! ## Session controller -/

/-- Member `QMLBridge::toastMessage`: a warning when no toast component is
registered, otherwise `showMessage` is invoked on it. -/
def toastMessage (b : QMLBridge) (msg : String) : List Event :=
  match b.toast with
  | none => [Event.noToastWarning]
  | some t => [Event.toastShown t msg]

/-- Modelled from the spec: `QMLBridge::getRDBEnabled` (declared in
`qmlbridge.h`), the getter of the remote-debug enable flag of "the current
debug-port configuration". -/
def QMLBridge.getRDBEnabled (b : QMLBridge) : Bool :=
  b.rdb_enabled

/-- Modelled from the spec: `QMLBridge::getRDBPort` (declared in
`qmlbridge.h`), the getter of the remote-debug port. -/
def QMLBridge.getRDBPort (b : QMLBridge) : Nat :=
  b.rdb_port

/-- Member `QMLBridge::restart`.  The `&&` evaluates `emu_thread.stop()` only
when `emu_thread.isRunning()` holds. -/
def restart (ops : EmuOps) (b : QMLBridge) (e : EmuThread) : Result Bool :=
  let stopped : Bool × EmuThread × List Event :=
    if e.running then
      (!(ops.stop e).1, (ops.stop e).2, [Event.emuStop])
    else (false, e, [])
  if stopped.1 then
    { ret := false, bridge := b, emu := stopped.2.1,
      events := stopped.2.2 ++ toastMessage b "Could not stop emulation" }
  else
    let e1 : EmuThread :=
      { stopped.2.1 with
        port_gdb := if b.gdb_enabled then b.gdb_port else 0,
        port_rdbg := if b.getRDBEnabled then b.getRDBPort else 0 }
    if e1.boot1 ≠ "" ∧ e1.flash ≠ "" then
      { ret := true, bridge := b, emu := ops.start e1,
        events := stopped.2.2 ++ toastMessage b "Starting emulation" ++ [Event.emuStart] }
    else
      { ret := false, bridge := b, emu := e1,
        events := stopped.2.2 ++
          toastMessage b "No boot1 or flash selected.\nSwipe keypad left for configuration." }

/-- Member `QMLBridge::getSnapshotPath`. -/
def getSnapshotPath (b : QMLBridge) : String :=
  match b.kit_model.indexForID b.current_kit_id with
  | some kitIndex => (b.kit_model.getKits.get kitIndex).snapshot
  | none => b.fallback_snapshot_path

/-- Member `QMLBridge::suspend`. -/
def suspend (ops : EmuOps) (b : QMLBridge) (e : EmuThread) : Result Unit :=
  let ev := toastMessage b "Suspending emulation"
  let snapshot_path := getSnapshotPath b
  if snapshot_path ≠ "" then
    { ret := (), bridge := b, emu := ops.suspend snapshot_path e,
      events := ev ++ [Event.emuSuspend snapshot_path] }
  else
    { ret := (), bridge := b, emu := e,
      events := ev ++
        toastMessage b "The current kit does not have a snapshot file configured" }

/-- Member `QMLBridge::useKit`: `none` is the null pointer. -/
def useKit (b : QMLBridge) (e : EmuThread) (id : Nat) : Result (Option Kit) :=
  match b.kit_model.indexForID id with
  | none => { ret := none, bridge := b, emu := e, events := [] }
  | some kitIndex =>
    let kit := b.kit_model.getKits.get kitIndex
    { ret := some kit,
      bridge := { b with fallback_snapshot_path := kit.snapshot },
      emu := { e with boot1 := kit.boot1, flash := kit.flash },
      events := [] }

/-- Member `QMLBridge::setCurrentKit`. -/
def setCurrentKit (b : QMLBridge) (e : EmuThread) (id : Nat) : Result Bool :=
  let r := useKit b e id
  match r.ret with
  | none => { ret := false, bridge := r.bridge, emu := r.emu, events := r.events }
  | some kit =>
    { ret := true, bridge := { r.bridge with current_kit_id := id }, emu := r.emu,
      events := r.events ++ [Event.currentKitChanged kit] }

/-- Member `QMLBridge::useDefaultKit`.  Indexing `getKits()[0]` on an empty
registry is out of bounds; the model has no result there (`none`). -/
def useDefaultKit (b : QMLBridge) (e : EmuThread) : Option (Result Bool) :=
  let r := setCurrentKit b e b.default_kit_id
  if r.ret then some r
  else
    match r.bridge.kit_model.getKits with
    | [] => none
    | first :: _ =>
      let r2 := setCurrentKit r.bridge r.emu first.id
      some { ret := false, bridge := r2.bridge, emu := r2.emu,
             events := r.events ++ r2.events }

/-! ## Input event router -/

/-- The global `std::multimap<int, QObject *> buttons`, as the sequence an
in-order traversal visits: ascending keys, equal keys in insertion order.
An iterator is a position in this sequence; `buttons.end()` is its length. -/
abbrev ButtonMap := List (Int × QObjectPtr)

/-- Conversion of an `unsigned int` argument to the `int` key of the map
(32-bit two's complement). -/
def toIntKey (keymap_id : Nat) : Int :=
  if keymap_id % 2 ^ 32 < 2 ^ 31 then ((keymap_id % 2 ^ 32 : Nat) : Int)
  else ((keymap_id % 2 ^ 32 : Nat) : Int) - 2 ^ 32

/-- Operation `std::multimap::insert`: the new pair goes at the upper bound of
the pairs with an equivalent key. -/
def multimapInsert (k : Int) (v : QObjectPtr) : ButtonMap → ButtonMap
  | [] => [(k, v)]
  | p :: rest =>
    if k < p.1 then (k, v) :: p :: rest
    else p :: multimapInsert k v rest

/-- Operation `std::multimap::lower_bound`: position of the first pair whose
key is not less than `k`. -/
def lower_bound (k : Int) : ButtonMap → Nat
  | [] => 0
  | p :: rest => if p.1 < k then lower_bound k rest + 1 else 0

/-- Operation `std::multimap::upper_bound`: position of the first pair whose
key is greater than `k`. -/
def upper_bound (k : Int) : ButtonMap → Nat
  | [] => 0
  | p :: rest => if k < p.1 then 0 else upper_bound k rest + 1

/-- Member `QMLBridge::registerNButton`. -/
def registerNButton (buttons : ButtonMap) (keymap_id : Nat) (button : QObjectPtr) :
    ButtonMap :=
  multimapInsert (toIntKey keymap_id) button buttons

/-- The button table after a sequence of `registerNButton` calls on the
initially empty map. -/
def registerAll (regs : List (Nat × QObjectPtr)) : ButtonMap :=
  regs.foldl (fun buttons r => registerNButton buttons r.1 r.2) []

/-- How a call of `notifyKeypadStateChanged` ends. -/
inductive KeypadOutcome where
  | done
  | warned
  | assertFailed
  | undefinedBehaviour
  deriving DecidableEq, Repr

/-- The `QQmlProperty::write(obj, "pressed", state)` calls made, in order, and
how the call ended. -/
structure KeypadNotify where
  writes : List (QObjectPtr × Bool)
  outcome : KeypadOutcome
  deriving DecidableEq, Repr

/-- The loop `do { write(it->second, "pressed", state); } while (++it != end);`
with the iterator at position `it`, `rest` being the pairs from `it` on.
Dereferencing `buttons.end()` is undefined behaviour. -/
def writeLoop (state : Bool) (endPos : Nat) : Nat → ButtonMap → KeypadNotify
  | _, [] => { writes := [], outcome := KeypadOutcome.undefinedBehaviour }
  | it, p :: rest =>
    if it + 1 ≠ endPos then
      let r := writeLoop state endPos (it + 1) rest
      { writes := (p.2, state) :: r.writes, outcome := r.outcome }
    else { writes := [(p.2, state)], outcome := KeypadOutcome.done }

/-- The keymap id `col + row * KEYPAD_COLS` computed by
`notifyKeypadStateChanged`.  The source computes it in `int`, where overflow
is undefined; on every cell of the keypad grid the value lies between 0 and
`KEYPAD_ROWS * KEYPAD_COLS`, where `int` and `Int` agree. -/
def keymapId (KEYPAD_COLS row col : Int) : Int :=
  col + row * KEYPAD_COLS

/-- Function `notifyKeypadStateChanged`, on the keypad dimensions
`KEYPAD_ROWS`, `KEYPAD_COLS` (constants of `core/keypad.h`) and the button
table. -/
def notifyKeypadStateChanged (KEYPAD_ROWS KEYPAD_COLS : Int) (buttons : ButtonMap)
    (row col : Int) (state : Bool) : KeypadNotify :=
  if ¬ row < KEYPAD_ROWS then { writes := [], outcome := KeypadOutcome.assertFailed }
  else if ¬ col < KEYPAD_COLS then { writes := [], outcome := KeypadOutcome.assertFailed }
  else
    let keymap_id := keymapId KEYPAD_COLS row col
    let it := lower_bound keymap_id buttons
    let endPos := upper_bound keymap_id buttons
    if it = buttons.length then { writes := [], outcome := KeypadOutcome.warned }
    else writeLoop state endPos it (buttons.drop it)

/-- Member `QMLBridge::keypadStateChanged`: the `(row, col)` handed to
`keypad_set_key`; `/` and `%` of C truncate towards zero. -/
def keypadStateChanged (KEYPAD_COLS keymap_id : Int) : Int × Int :=
  let col := Int.tmod keymap_id KEYPAD_COLS
  let row := Int.tdiv keymap_id KEYPAD_COLS
  (row, col)

/-- A method invoked on a touchpad element through `QMetaObject::invokeMethod`. -/
inductive TouchpadCall (ρ : Type) where
  | showHighlight (target : QObjectPtr) (x y : ρ) (down : Bool)
  | hideHighlight (target : QObjectPtr)
  deriving DecidableEq, Repr

/-- Member `QMLBridge::registerTouchpad` on the global `qml_touchpads`. -/
def registerTouchpad (qml_touchpads : List QObjectPtr) (touchpad : QObjectPtr) :
    List QObjectPtr :=
  qml_touchpads ++ [touchpad]

/-- The range-for loop of `notifyTouchpadStateChanged`. -/
def touchpadLoop {ρ : Type} (x y : ρ) (contact down : Bool) :
    List QObjectPtr → List (TouchpadCall ρ)
  | [] => []
  | qml_touchpad :: rest =>
    (if contact || down then TouchpadCall.showHighlight qml_touchpad x y down
     else TouchpadCall.hideHighlight qml_touchpad) :: touchpadLoop x y contact down rest

/-- Function `notifyTouchpadStateChanged(x, y, contact, down)`: whether the
warning was logged, and the methods invoked, in order.  The coordinates are
passed through untouched, so their type `ρ` is left open. -/
def notifyTouchpadStateChanged {ρ : Type} (qml_touchpads : List QObjectPtr)
    (x y : ρ) (contact down : Bool) : Bool × List (TouchpadCall ρ) :=
  if qml_touchpads.isEmpty then (true, [])
  else (false, touchpadLoop x y contact down qml_touchpads)

/-! ## Specification-side definitions and concrete states -/

/-- The snapshot path as the specification words it: the snapshot path of the
kit whose id equals the current kit id if such a kit is in the registry, and
the remembered fallback snapshot path otherwise. -/
def resolvedSnapshotPath (b : QMLBridge) : String :=
  match b.kit_model.kits.find? (fun k => decide (k.id = b.current_kit_id)) with
  | some k => k.snapshot
  | none => b.fallback_snapshot_path

/-- The values received by element `h` in a sequence of property writes. -/
def observed (h : QObjectPtr) (ws : List (QObjectPtr × Bool)) : List Bool :=
  (ws.filter (fun w => decide (w.1 = h))).map (fun w => w.2)

/-- An emulation thread whose `stop` always succeeds. -/
def cooperativeOps : EmuOps :=
  { stop := fun e => (true, { e with running := false }),
    start := fun e => { e with running := true },
    suspend := fun _ e => e }

/-- An emulation thread whose `stop` always fails. -/
def stuckOps : EmuOps :=
  { stop := fun e => (false, e),
    start := fun e => { e with running := true },
    suspend := fun _ e => e }

/-- A registry of two kits; only the second has a snapshot file. -/
def sampleKits : KitModel :=
  { kits := [{ id := 3, name := "CX", boot1 := "boot1.img", flash := "flash.img",
               snapshot := "" },
             { id := 7, name := "CAS", boot1 := "b2.img", flash := "f2.img",
               snapshot := "cas.snap" }],
    nextID := 8 }

/-- A bridge with the debug server enabled on port 3333, kit 7 selected. -/
def sampleBridge : QMLBridge :=
  { kit_model := sampleKits, current_kit_id := 7, default_kit_id := 5,
    fallback_snapshot_path := "", gdb_enabled := true, gdb_port := 3333,
    rdb_enabled := false, rdb_port := 3334, toast := some 1 }

/-- A stopped session with both images configured and no debug ports set. -/
def readySession : EmuThread :=
  { running := false, boot1 := "boot1.img", flash := "flash.img",
    port_gdb := 0, port_rdbg := 0 }

/-- A stopped session without a boot1 image and no debug ports set. -/
def unconfiguredSession : EmuThread :=
  { running := false, boot1 := "", flash := "flash.img", port_gdb := 0, port_rdbg := 0 }

/-- A settings store without a kit collection, holding the legacy paths. -/
def legacySettings : QSettings := fun k =>
  if k = "boot1" then some (QVariant.str "boot1.img")
  else if k = "flash" then some (QVariant.str "flash.img")
  else if k = "usbdir" then some (QVariant.str "ndless")
  else none

/-- A settings store holding the sample kit collection. -/
def kitSettings : QSettings := fun k =>
  if k = "kits" then some (QVariant.kits sampleKits) else none

/-! ## Session controller: theorems -/

/-- C1: `restart()`, for every bridge and session state and every behaviour
of the emulation thread.  When a session is running and `stop()` fails,
`start()` is not called and the result is false: the only calls are the
`stop()` and the toast, and the session is exactly as `stop()` left it.  When
no session is running and the session's boot1 and flash paths are non-empty,
`start()` is called exactly once, on the session with the configured debug
ports, and the result is true.  When a session is running and `stop()`
succeeds, the same holds on the stopped session: for the paths `restart`
reads there, and hence for the paths the session had before the call
whenever `stop()` left boot1 and flash as they were.  The bridge is never
changed. -/
theorem restart_contract (ops : EmuOps) (b : QMLBridge) (e : EmuThread) :
    (e.running = true → (ops.stop e).1 = false →
      (restart ops b e).ret = false ∧
      startCalls (restart ops b e).events = 0 ∧
      (restart ops b e).events =
        Event.emuStop :: toastMessage b "Could not stop emulation" ∧
      (restart ops b e).emu = (ops.stop e).2 ∧
      (restart ops b e).bridge = b) ∧
    (e.running = false → e.boot1 ≠ "" → e.flash ≠ "" →
      (restart ops b e).ret = true ∧
      startCalls (restart ops b e).events = 1 ∧
      (restart ops b e).events =
        toastMessage b "Starting emulation" ++ [Event.emuStart] ∧
      (restart ops b e).emu =
        ops.start { e with port_gdb := if b.gdb_enabled then b.gdb_port else 0,
                           port_rdbg := if b.rdb_enabled then b.rdb_port else 0 } ∧
      (restart ops b e).bridge = b) ∧
    (e.running = true → (ops.stop e).1 = true →
      (ops.stop e).2.boot1 ≠ "" → (ops.stop e).2.flash ≠ "" →
      (restart ops b e).ret = true ∧
      startCalls (restart ops b e).events = 1 ∧
      (restart ops b e).events =
        Event.emuStop :: (toastMessage b "Starting emulation" ++ [Event.emuStart]) ∧
      (restart ops b e).emu =
        ops.start { (ops.stop e).2 with
                    port_gdb := if b.gdb_enabled then b.gdb_port else 0,
                    port_rdbg := if b.rdb_enabled then b.rdb_port else 0 } ∧
      (restart ops b e).bridge = b) ∧
    (e.running = true → (ops.stop e).1 = true →
      (ops.stop e).2.boot1 = e.boot1 → (ops.stop e).2.flash = e.flash →
      e.boot1 ≠ "" → e.flash ≠ "" →
      (restart ops b e).ret = true ∧
      startCalls (restart ops b e).events = 1 ∧
      (restart ops b e).events =
        Event.emuStop :: (toastMessage b "Starting emulation" ++ [Event.emuStart]) ∧
      (restart ops b e).emu =
        ops.start { (ops.stop e).2 with
                    port_gdb := if b.gdb_enabled then b.gdb_port else 0,
                    port_rdbg := if b.rdb_enabled then b.rdb_port else 0 } ∧
      (restart ops b e).bridge = b) := by
  have hstopped : e.running = true → (ops.stop e).1 = true →
      (ops.stop e).2.boot1 ≠ "" → (ops.stop e).2.flash ≠ "" →
      (restart ops b e).ret = true ∧
      startCalls (restart ops b e).events = 1 ∧
      (restart ops b e).events =
        Event.emuStop :: (toastMessage b "Starting emulation" ++ [Event.emuStart]) ∧
      (restart ops b e).emu =
        ops.start { (ops.stop e).2 with
                    port_gdb := if b.gdb_enabled then b.gdb_port else 0,
                    port_rdbg := if b.rdb_enabled then b.rdb_port else 0 } ∧
      (restart ops b e).bridge = b := by
    intro hr hs hb hf
    cases ht : b.toast <;>
      simp [restart, hr, hs, hb, hf, toastMessage, startCalls, ht,
        QMLBridge.getRDBEnabled, QMLBridge.getRDBPort]
  refine ⟨?_, ?_, hstopped, ?_⟩
  · intro hr hs
    cases ht : b.toast <;> simp [restart, hr, hs, toastMessage, startCalls, ht]
  · intro hr hb hf
    cases ht : b.toast <;>
      simp [restart, hr, hb, hf, toastMessage, startCalls, ht,
        QMLBridge.getRDBEnabled, QMLBridge.getRDBPort]
  · intro hr hs hkb hkf hb hf
    exact hstopped hr hs (by rw [hkb]; exact hb) (by rw [hkf]; exact hf)

/-- Witness of C1 on a stuck running session, a stopped configured session and
a running session that stops (read after the stop, and with the paths it had
before the call). -/
theorem restart_contract_witness :
    ((restart stuckOps sampleBridge { readySession with running := true }).ret = false ∧
      startCalls (restart stuckOps sampleBridge
        { readySession with running := true }).events = 0 ∧
      (restart stuckOps sampleBridge { readySession with running := true }).emu =
        { readySession with running := true }) ∧
    ((restart cooperativeOps sampleBridge readySession).ret = true ∧
      startCalls (restart cooperativeOps sampleBridge readySession).events = 1 ∧
      (restart cooperativeOps sampleBridge readySession).events =
        [Event.toastShown 1 "Starting emulation", Event.emuStart] ∧
      (restart cooperativeOps sampleBridge readySession).emu =
        { readySession with running := true, port_gdb := 3333, port_rdbg := 0 }) ∧
    ((restart cooperativeOps sampleBridge { readySession with running := true }).ret = true ∧
      startCalls (restart cooperativeOps sampleBridge
        { readySession with running := true }).events = 1) ∧
    ((restart cooperativeOps sampleBridge { readySession with running := true }).events =
        [Event.emuStop, Event.toastShown 1 "Starting emulation", Event.emuStart] ∧
      (restart cooperativeOps sampleBridge { readySession with running := true }).emu =
        { readySession with running := true, port_gdb := 3333, port_rdbg := 0 }) :=
  ⟨⟨((restart_contract stuckOps sampleBridge
        { readySession with running := true }).1 rfl rfl).1,
    ((restart_contract stuckOps sampleBridge
        { readySession with running := true }).1 rfl rfl).2.1,
    ((restart_contract stuckOps sampleBridge
        { readySession with running := true }).1 rfl rfl).2.2.2.1⟩,
   ⟨((restart_contract cooperativeOps sampleBridge readySession).2.1 rfl
        (by decide) (by decide)).1,
    ((restart_contract cooperativeOps sampleBridge readySession).2.1 rfl
        (by decide) (by decide)).2.1,
    ((restart_contract cooperativeOps sampleBridge readySession).2.1 rfl
        (by decide) (by decide)).2.2.1,
    ((restart_contract cooperativeOps sampleBridge readySession).2.1 rfl
        (by decide) (by decide)).2.2.2.1⟩,
   ⟨((restart_contract cooperativeOps sampleBridge
        { readySession with running := true }).2.2.1 rfl rfl (by decide) (by decide)).1,
    ((restart_contract cooperativeOps sampleBridge
        { readySession with running := true }).2.2.1 rfl rfl (by decide) (by decide)).2.1⟩,
   ⟨((restart_contract cooperativeOps sampleBridge
        { readySession with running := true }).2.2.2 rfl rfl rfl rfl
        (by decide) (by decide)).2.2.1,
    ((restart_contract cooperativeOps sampleBridge
        { readySession with running := true }).2.2.2 rfl rfl rfl rfl
        (by decide) (by decide)).2.2.2.1⟩⟩

/-- C7 as stated fails: on a stopped session without a boot1 path, `restart()`
returns false but overwrites the session's `port_gdb` (0 before, 3333 after). -/
theorem restart_missing_path_mutates_ports :
    (unconfiguredSession.boot1 = "" ∨ unconfiguredSession.flash = "") ∧
    unconfiguredSession.port_gdb = 0 ∧
    (restart cooperativeOps sampleBridge unconfiguredSession).emu.port_gdb = 3333 ∧
    ¬ ((restart cooperativeOps sampleBridge unconfiguredSession).ret = false ∧
       (restart cooperativeOps sampleBridge unconfiguredSession).emu = unconfiguredSession ∧
       (restart cooperativeOps sampleBridge unconfiguredSession).bridge = sampleBridge) := by
  decide

/-- C7 amended: when the boot1 or flash path that `restart()` reads is empty,
it returns false, never calls `start()` and leaves the bridge unchanged; the
session is left as the stop attempt left it (untouched when none was running),
except that `port_gdb` and `port_rdbg` are overwritten with the configured
debug ports (0 for a disabled one) unless stopping failed. -/
theorem restart_missing_path_frame (ops : EmuOps) (b : QMLBridge) (e : EmuThread) :
    (e.running = false → (e.boot1 = "" ∨ e.flash = "") →
      (restart ops b e).ret = false ∧ (restart ops b e).bridge = b ∧
      startCalls (restart ops b e).events = 0 ∧
      (restart ops b e).emu =
        { e with port_gdb := if b.gdb_enabled then b.gdb_port else 0,
                 port_rdbg := if b.rdb_enabled then b.rdb_port else 0 }) ∧
    (e.running = true → ((ops.stop e).2.boot1 = "" ∨ (ops.stop e).2.flash = "") →
      (restart ops b e).ret = false ∧ (restart ops b e).bridge = b ∧
      startCalls (restart ops b e).events = 0 ∧
      (restart ops b e).emu =
        if (ops.stop e).1 then
          { (ops.stop e).2 with
            port_gdb := if b.gdb_enabled then b.gdb_port else 0,
            port_rdbg := if b.rdb_enabled then b.rdb_port else 0 }
        else (ops.stop e).2) := by
  refine ⟨?_, ?_⟩
  · intro hr hp
    have hc : ¬ (e.boot1 ≠ "" ∧ e.flash ≠ "") := by
      rintro ⟨h1, h2⟩
      rcases hp with h | h
      · exact h1 h
      · exact h2 h
    cases ht : b.toast <;>
      simp [restart, hr, hc, toastMessage, startCalls, ht, QMLBridge.getRDBEnabled,
        QMLBridge.getRDBPort]
  · intro hr hp
    have hc : ¬ ((ops.stop e).2.boot1 ≠ "" ∧ (ops.stop e).2.flash ≠ "") := by
      rintro ⟨h1, h2⟩
      rcases hp with h | h
      · exact h1 h
      · exact h2 h
    cases hs : (ops.stop e).1 <;> cases ht : b.toast <;>
      simp [restart, hr, hs, hc, toastMessage, startCalls, ht, QMLBridge.getRDBEnabled,
        QMLBridge.getRDBPort]

/-- Witness of the amended C7 on a stopped session without boot1 and on a
running one that stops. -/
theorem restart_missing_path_frame_witness :
    ((restart cooperativeOps sampleBridge unconfiguredSession).ret = false ∧
      (restart cooperativeOps sampleBridge unconfiguredSession).bridge = sampleBridge ∧
      startCalls (restart cooperativeOps sampleBridge unconfiguredSession).events = 0 ∧
      (restart cooperativeOps sampleBridge unconfiguredSession).emu =
        { unconfiguredSession with port_gdb := 3333, port_rdbg := 0 }) ∧
    (restart cooperativeOps sampleBridge { unconfiguredSession with running := true }).emu =
        { unconfiguredSession with port_gdb := 3333, port_rdbg := 0 } :=
  ⟨(restart_missing_path_frame cooperativeOps sampleBridge unconfiguredSession).1 rfl
      (Or.inl rfl),
   ((restart_missing_path_frame cooperativeOps sampleBridge
      { unconfiguredSession with running := true }).2 rfl (Or.inl rfl)).2.2.2⟩

/-! ## Kit registry: lemmas and theorems -/

/-- Looking up an id no kit carries yields the invalid index. -/
theorem findKitRow_absent (id : Nat) (kits : List Kit)
    (h : ∀ k ∈ kits, k.id ≠ id) : findKitRow id kits = none := by
  induction kits with
  | nil => rfl
  | cons k rest ih =>
    have hk : k.id ≠ id := h k (List.mem_cons_self _ _)
    have hrest : ∀ k' ∈ rest, k'.id ≠ id := fun k' hk' => h k' (List.mem_cons_of_mem _ hk')
    simp [findKitRow, hk, ih hrest]

/-- The row found for an id holds the first kit carrying that id. -/
theorem findKitRow_get (id : Nat) (kits : List Kit) :
    (findKitRow id kits).map (fun i => kits.get i) =
      kits.find? (fun k => decide (k.id = id)) := by
  induction kits with
  | nil => rfl
  | cons k rest ih =>
    by_cases hk : k.id = id
    · simp [findKitRow, hk]
    · simp only [findKitRow, hk, if_false, Option.map_map]
      rw [List.find?_cons_of_neg _ (by simpa using hk), ← ih]
      rfl

/-- The code's `getSnapshotPath` computes the path the specification describes. -/
theorem getSnapshotPath_eq_resolved (b : QMLBridge) :
    getSnapshotPath b = resolvedSnapshotPath b := by
  have h := findKitRow_get b.current_kit_id b.kit_model.kits
  unfold getSnapshotPath resolvedSnapshotPath KitModel.indexForID KitModel.getKits
  cases hi : findKitRow b.current_kit_id b.kit_model.kits with
  | none =>
    rw [hi] at h
    simp only [Option.map_none'] at h
    rw [← h]
  | some i =>
    rw [hi] at h
    simp only [Option.map_some'] at h
    rw [← h]

/-- The lookup failure path of `setCurrentKit`: nothing is touched. -/
theorem setCurrentKit_of_findKitRow_none (b : QMLBridge) (e : EmuThread) (id : Nat)
    (hnone : findKitRow id b.kit_model.kits = none) :
    setCurrentKit b e id = { ret := false, bridge := b, emu := e, events := [] } := by
  simp [setCurrentKit, useKit, KitModel.indexForID, hnone]

/-- C2: `setCurrentKit(id)` with an id that no kit of the registry carries
returns false and changes nothing: the bridge (current kit id, remembered
fallback snapshot path, registry) and the session (boot1, flash) are as
before, and no signal is emitted. -/
theorem setCurrentKit_absent (b : QMLBridge) (e : EmuThread) (id : Nat)
    (h : ∀ k ∈ b.kit_model.kits, k.id ≠ id) :
    (setCurrentKit b e id).ret = false ∧
    (setCurrentKit b e id).bridge = b ∧
    (setCurrentKit b e id).emu = e ∧
    (setCurrentKit b e id).events = [] := by
  rw [setCurrentKit_of_findKitRow_none b e id (findKitRow_absent id b.kit_model.kits h)]
  exact ⟨rfl, rfl, rfl, rfl⟩

/-- Witness of C2: id 5 is not in the sample registry. -/
theorem setCurrentKit_absent_witness :
    (setCurrentKit sampleBridge readySession 5).ret = false ∧
    (setCurrentKit sampleBridge readySession 5).bridge = sampleBridge ∧
    (setCurrentKit sampleBridge readySession 5).emu = readySession ∧
    (setCurrentKit sampleBridge readySession 5).events = [] :=
  setCurrentKit_absent sampleBridge readySession 5 (by decide)

/-- C5: `useDefaultKit()` on a non-empty registry none of whose kits carries
the default kit id returns false, and afterwards the current kit id is the id
of the first kit and the session's boot1 and flash paths are that kit's. -/
theorem useDefaultKit_fallback (b : QMLBridge) (e : EmuThread) (first : Kit)
    (rest : List Kit) (hkits : b.kit_model.kits = first :: rest)
    (h : ∀ k ∈ b.kit_model.kits, k.id ≠ b.default_kit_id) :
    ∃ r, useDefaultKit b e = some r ∧ r.ret = false ∧
      r.bridge.current_kit_id = first.id ∧
      r.emu.boot1 = first.boot1 ∧ r.emu.flash = first.flash := by
  have hfail := setCurrentKit_of_findKitRow_none b e b.default_kit_id
    (findKitRow_absent b.default_kit_id b.kit_model.kits h)
  obtain ⟨⟨kits, nextID⟩, cur, dflt, fb, ge, gp, re, rp, t⟩ := b
  simp only at hkits hfail
  subst hkits
  refine ⟨{ ret := false,
            bridge := (setCurrentKit ⟨⟨first :: rest, nextID⟩, cur, dflt, fb, ge, gp, re, rp, t⟩
              e first.id).bridge,
            emu := (setCurrentKit ⟨⟨first :: rest, nextID⟩, cur, dflt, fb, ge, gp, re, rp, t⟩
              e first.id).emu,
            events := (setCurrentKit ⟨⟨first :: rest, nextID⟩, cur, dflt, fb, ge, gp, re, rp, t⟩
              e first.id).events }, ?_, ?_⟩
  · unfold useDefaultKit
    simp only [hfail, KitModel.getKits]
    rfl
  · simp [setCurrentKit, useKit, KitModel.indexForID, KitModel.getKits, findKitRow]

/-- Witness of C5: the sample bridge's default id 5 is absent, kit 3 is first. -/
theorem useDefaultKit_fallback_witness :
    ∃ r, useDefaultKit sampleBridge unconfiguredSession = some r ∧ r.ret = false ∧
      r.bridge.current_kit_id = 3 ∧
      r.emu.boot1 = "boot1.img" ∧ r.emu.flash = "flash.img" :=
  useDefaultKit_fallback sampleBridge unconfiguredSession
    { id := 3, name := "CX", boot1 := "boot1.img", flash := "flash.img", snapshot := "" }
    [{ id := 7, name := "CAS", boot1 := "b2.img", flash := "f2.img", snapshot := "cas.snap" }]
    rfl (by decide)

/-- C8: `suspend()`: with `p` the resolved snapshot path (that of the kit
carrying the current kit id, else the remembered fallback), an empty `p` means
the session's suspend is not invoked and bridge and session are unchanged; a
non-empty `p` means it is invoked exactly once, with path `p`. -/
theorem suspend_contract (ops : EmuOps) (b : QMLBridge) (e : EmuThread) :
    (resolvedSnapshotPath b = "" →
      suspendCalls (suspend ops b e).events = [] ∧
      (suspend ops b e).bridge = b ∧ (suspend ops b e).emu = e) ∧
    (resolvedSnapshotPath b ≠ "" →
      suspendCalls (suspend ops b e).events = [resolvedSnapshotPath b] ∧
      (suspend ops b e).bridge = b ∧
      (suspend ops b e).emu = ops.suspend (resolvedSnapshotPath b) e) := by
  refine ⟨?_, ?_⟩
  · intro hp
    cases ht : b.toast <;>
      simp [suspend, getSnapshotPath_eq_resolved, hp, toastMessage, ht, suspendCalls]
  · intro hp
    cases ht : b.toast <;>
      simp [suspend, getSnapshotPath_eq_resolved, hp, toastMessage, ht, suspendCalls]

/-- Witness of C8: kit 3 has no snapshot file, kit 7 has `cas.snap`. -/
theorem suspend_contract_witness :
    (suspendCalls (suspend cooperativeOps
        { sampleBridge with current_kit_id := 3 } readySession).events = [] ∧
      (suspend cooperativeOps { sampleBridge with current_kit_id := 3 } readySession).bridge
        = { sampleBridge with current_kit_id := 3 } ∧
      (suspend cooperativeOps { sampleBridge with current_kit_id := 3 } readySession).emu
        = readySession) ∧
    suspendCalls (suspend cooperativeOps sampleBridge readySession).events = ["cas.snap"] :=
  ⟨(suspend_contract cooperativeOps { sampleBridge with current_kit_id := 3 }
      readySession).1 (by decide),
   ((suspend_contract cooperativeOps sampleBridge readySession).2 (by decide)).1⟩

/-- The USB-directory migration leaves every other key of the store alone. -/
theorem setValue_other (s : QSettings) (key k : String) (v : QVariant) (h : k ≠ key) :
    s.setValue key v k = s k := by
  simp [QSettings.setValue, h]

/-- C6: construction: when the settings store has no serialized kit collection,
or it deserializes to zero kits, the registry afterwards holds exactly one
kit, named "Default" and built from the legacy boot1, flash and snapshotPath
settings; when the stored collection has one or more kits the registry is
that collection, with no default kit added. -/
theorem ctorKits_default (settings : QSettings) :
    ((settings.contains "kits" = false ∨
        (settings.value "kits").toKitModel.kits = []) →
      ∃ id, (QMLBridge.ctorKits settings).2.kits =
        [{ id := id, name := "Default",
           boot1 := (settings.value "boot1").toString,
           flash := (settings.value "flash").toString,
           snapshot := (settings.value "snapshotPath").toString }]) ∧
    (settings.contains "kits" = true →
      (settings.value "kits").toKitModel.kits ≠ [] →
      (QMLBridge.ctorKits settings).2 = (settings.value "kits").toKitModel) := by
  have hk : ∀ (key : String) (v : QVariant), key ≠ "usbdirNew" →
      (settings.setValue "usbdirNew" v).contains key = settings.contains key ∧
      (settings.setValue "usbdirNew" v).value key = settings.value key := by
    intro key v hne
    simp [QSettings.contains, QSettings.value, setValue_other settings "usbdirNew" key v hne]
  have h1 := fun v => hk "kits" v (by decide)
  have h2 := fun v => hk "boot1" v (by decide)
  have h3 := fun v => hk "flash" v (by decide)
  have h4 := fun v => hk "snapshotPath" v (by decide)
  refine ⟨?_, ?_⟩
  · intro h
    unfold QMLBridge.ctorKits
    by_cases hm : (settings.contains "usbdir" && !settings.contains "usbdirNew") = true
    · rcases h with h | h
      · simp [hm, h1, h2, h3, h4, h, KitModel.addKit]
      · by_cases hc : settings.contains "kits" = true
        · simp [hm, h1, h2, h3, h4, h, hc, KitModel.addKit, KitModel.rowCount]
        · simp [hm, h1, h2, h3, h4, hc, KitModel.addKit]
    · rcases h with h | h
      · simp [hm, h, KitModel.addKit]
      · by_cases hc : settings.contains "kits" = true
        · simp [hm, h, hc, KitModel.addKit, KitModel.rowCount]
        · simp [hm, hc, KitModel.addKit]
  · intro hc hne
    unfold QMLBridge.ctorKits
    by_cases hm : (settings.contains "usbdir" && !settings.contains "usbdirNew") = true
    · simp [hm, h1, hc, hne, KitModel.rowCount]
    · simp [hm, hc, hne, KitModel.rowCount]

/-- Witness of C6 on a store without kits and on one with two kits. -/
theorem ctorKits_default_witness :
    (∃ id, (QMLBridge.ctorKits legacySettings).2.kits =
        [{ id := id, name := "Default",
           boot1 := (legacySettings.value "boot1").toString,
           flash := (legacySettings.value "flash").toString,
           snapshot := (legacySettings.value "snapshotPath").toString }]) ∧
    (QMLBridge.ctorKits kitSettings).2 = (kitSettings.value "kits").toKitModel :=
  ⟨(ctorKits_default legacySettings).1 (Or.inl (by decide)),
   (ctorKits_default kitSettings).2 (by decide) (by decide)⟩

/-! ## Input event router: theorems -/

/-- The loop issues one call per registered touchpad, in registration order. -/
theorem touchpadLoop_eq_map {ρ : Type} (x y : ρ) (contact down : Bool)
    (tps : List QObjectPtr) :
    touchpadLoop x y contact down tps =
      tps.map (fun t => if contact || down then TouchpadCall.showHighlight t x y down
                        else TouchpadCall.hideHighlight t) := by
  induction tps with
  | nil => rfl
  | cons t rest ih => simp [touchpadLoop, ih]

/-- C9: `notifyTouchpadStateChanged(x, y, contact, down)`: when
`contact || down`, the calls made are one `showHighlight(x, y, down)` per
registered touchpad, in registration order, and no `hideHighlight`; otherwise
one `hideHighlight` per registered touchpad and no `showHighlight`; with no
touchpad registered nothing is invoked and the warning is logged. -/
theorem notifyTouchpad_broadcast {ρ : Type} (tps : List QObjectPtr) (x y : ρ)
    (contact down : Bool) :
    ((contact || down) = true →
      (notifyTouchpadStateChanged tps x y contact down).2 =
        tps.map (fun t => TouchpadCall.showHighlight t x y down)) ∧
    ((contact || down) = false →
      (notifyTouchpadStateChanged tps x y contact down).2 =
        tps.map (fun t => TouchpadCall.hideHighlight t)) ∧
    notifyTouchpadStateChanged [] x y contact down = (true, []) := by
  refine ⟨?_, ?_, rfl⟩
  · intro h
    cases tps with
    | nil => rfl
    | cons t rest =>
      simp only [notifyTouchpadStateChanged, List.isEmpty_cons, touchpadLoop_eq_map, h]
      simp
  · intro h
    cases tps with
    | nil => rfl
    | cons t rest =>
      simp only [notifyTouchpadStateChanged, List.isEmpty_cons, touchpadLoop_eq_map, h]
      simp

/-- Witness of C9: two registered touchpads, a contact and a lift-off. -/
theorem notifyTouchpad_broadcast_witness :
    (notifyTouchpadStateChanged (registerTouchpad (registerTouchpad [] 4) 9)
        (1 : Nat) (2 : Nat) true false).2 =
      [TouchpadCall.showHighlight 4 1 2 false, TouchpadCall.showHighlight 9 1 2 false] ∧
    (notifyTouchpadStateChanged (registerTouchpad (registerTouchpad [] 4) 9)
        (1 : Nat) (2 : Nat) false false).2 =
      [TouchpadCall.hideHighlight 4, TouchpadCall.hideHighlight 9] :=
  ⟨(notifyTouchpad_broadcast (registerTouchpad (registerTouchpad [] 4) 9)
      (1 : Nat) (2 : Nat) true false).1 rfl,
   (notifyTouchpad_broadcast (registerTouchpad (registerTouchpad [] 4) 9)
      (1 : Nat) (2 : Nat) false false).2.1 rfl⟩

/-- Decoding an encoded in-range cell gives the cell back. -/
theorem decode_encode (COLS row col : Int) (hrow : 0 ≤ row) (hcol : 0 ≤ col)
    (hlt : col < COLS) :
    keypadStateChanged COLS (keymapId COLS row col) = (row, col) := by
  have hC : 0 < COLS := lt_of_le_of_lt hcol hlt
  have hid : 0 ≤ col + row * COLS := add_nonneg hcol (mul_nonneg hrow hC.le)
  unfold keypadStateChanged keymapId
  rw [Int.tmod_eq_emod hid hC.le, Int.tdiv_eq_ediv hid hC.le,
    Int.add_mul_emod_self, Int.add_mul_ediv_right _ _ hC.ne',
    Int.emod_eq_of_lt hcol hlt, Int.ediv_eq_zero_of_lt hcol hlt]
  simp

/-- C10: on the keypad grid the keymap id encoding of
`notifyKeypadStateChanged` and the decoding of `keypadStateChanged` are
mutually inverse: decoding `col + row * KEYPAD_COLS` returns `(row, col)` for
every in-range cell, re-encoding the decoded id returns the id for every id
below `KEYPAD_ROWS * KEYPAD_COLS`, and distinct in-range cells have distinct
ids. -/
theorem keymap_roundtrip (KEYPAD_ROWS KEYPAD_COLS : Int) :
    (∀ row col : Int, 0 ≤ row → row < KEYPAD_ROWS → 0 ≤ col → col < KEYPAD_COLS →
      keypadStateChanged KEYPAD_COLS (keymapId KEYPAD_COLS row col) = (row, col)) ∧
    (∀ id : Int, 0 ≤ id → id < KEYPAD_ROWS * KEYPAD_COLS →
      keymapId KEYPAD_COLS (keypadStateChanged KEYPAD_COLS id).1
        (keypadStateChanged KEYPAD_COLS id).2 = id) ∧
    (∀ row col row' col' : Int,
      0 ≤ row → row < KEYPAD_ROWS → 0 ≤ col → col < KEYPAD_COLS →
      0 ≤ row' → row' < KEYPAD_ROWS → 0 ≤ col' → col' < KEYPAD_COLS →
      keymapId KEYPAD_COLS row col = keymapId KEYPAD_COLS row' col' →
      row = row' ∧ col = col') := by
  refine ⟨?_, ?_, ?_⟩
  · intro row col hr _ hc hlt
    exact decode_encode KEYPAD_COLS row col hr hc hlt
  · intro id _ _
    simp only [keypadStateChanged, keymapId]
    exact Int.tmod_add_tdiv' id KEYPAD_COLS
  · intro row col row' col' hr _ hc hlt hr' _ hc' hlt' heq
    have h1 := decode_encode KEYPAD_COLS row col hr hc hlt
    have h2 := decode_encode KEYPAD_COLS row' col' hr' hc' hlt'
    rw [heq, h2] at h1
    exact ⟨(congrArg Prod.fst h1).symm, (congrArg Prod.snd h1).symm⟩

/-- Witness of C10 on an 8 by 11 grid: cell (3, 4) has id 37. -/
theorem keymap_roundtrip_witness :
    keypadStateChanged 11 (keymapId 11 3 4) = (3, 4) ∧
    keymapId 11 (keypadStateChanged 11 37).1 (keypadStateChanged 11 37).2 = 37 ∧
    ((3 : Int) = 3 ∧ (4 : Int) = 4) :=
  ⟨(keymap_roundtrip 8 11).1 3 4 (by decide) (by decide) (by decide) (by decide),
   (keymap_roundtrip 8 11).2.1 37 (by decide) (by decide),
   (keymap_roundtrip 8 11).2.2 3 4 3 4 (by decide) (by decide) (by decide) (by decide)
     (by decide) (by decide) (by decide) (by decide) rfl⟩

/-! ### The button table is ordered and stable -/

/-- Pairs of the table after an insertion are the new pair or old ones. -/
theorem mem_multimapInsert (k : Int) (v : QObjectPtr) (t : ButtonMap) (q : Int × QObjectPtr)
    (h : q ∈ multimapInsert k v t) : q = (k, v) ∨ q ∈ t := by
  induction t with
  | nil => simpa [multimapInsert] using h
  | cons p rest ih =>
    unfold multimapInsert at h
    by_cases hk : k < p.1
    · simp only [hk, if_true, List.mem_cons] at h
      rcases h with h | h | h
      · exact Or.inl h
      · exact Or.inr (by simp [h])
      · exact Or.inr (by simp [h])
    · simp only [hk, if_false, List.mem_cons] at h
      rcases h with h | h
      · exact Or.inr (by simp [h])
      · rcases ih h with h' | h'
        · exact Or.inl h'
        · exact Or.inr (by simp [h'])

/-- Insertion keeps the keys in ascending order. -/
theorem multimapInsert_sorted (k : Int) (v : QObjectPtr) (t : ButtonMap)
    (ht : t.Pairwise (fun p q => p.1 ≤ q.1)) :
    (multimapInsert k v t).Pairwise (fun p q => p.1 ≤ q.1) := by
  induction t with
  | nil => simp [multimapInsert]
  | cons p rest ih =>
    rw [List.pairwise_cons] at ht
    unfold multimapInsert
    by_cases hk : k < p.1
    · simp only [hk, if_true]
      refine List.Pairwise.cons ?_ (List.Pairwise.cons ht.1 ht.2)
      intro q hq
      rcases List.mem_cons.mp hq with h | h
      · rw [h]; exact hk.le
      · exact le_trans hk.le (ht.1 q h)
    · simp only [hk, if_false]
      refine List.Pairwise.cons ?_ (ih ht.2)
      intro q hq
      rcases mem_multimapInsert k v rest q hq with h | h
      · rw [h]; exact not_lt.mp hk
      · exact ht.1 q h

/-- No pair of an ordered table that starts above `id` has key `id`. -/
theorem filter_key_above (id : Int) (t : ButtonMap) (h : ∀ q ∈ t, id < q.1) :
    t.filter (fun q => decide (q.1 = id)) = [] := by
  rw [List.filter_eq_nil_iff]
  intro q hq
  simpa using (h q hq).ne'

/-- A new pair lands behind the pairs already registered under its key and
leaves the pairs of every other key in place. -/
theorem filter_multimapInsert (id k : Int) (v : QObjectPtr) (t : ButtonMap)
    (ht : t.Pairwise (fun p q => p.1 ≤ q.1)) :
    (multimapInsert k v t).filter (fun q => decide (q.1 = id)) =
      t.filter (fun q => decide (q.1 = id)) ++ (if k = id then [(k, v)] else []) := by
  induction t with
  | nil => by_cases hk : k = id <;> simp [multimapInsert, hk]
  | cons p rest ih =>
    rw [List.pairwise_cons] at ht
    unfold multimapInsert
    by_cases hlt : k < p.1
    · simp only [hlt, if_true]
      by_cases hk : k = id
      · have habove : ∀ q ∈ p :: rest, id < q.1 := by
          intro q hq
          rcases List.mem_cons.mp hq with h | h
          · rw [h, ← hk]; exact hlt
          · rw [← hk]; exact lt_of_lt_of_le hlt (ht.1 q h)
        rw [List.filter_cons, filter_key_above id (p :: rest) habove]
        simp [hk]
      · rw [List.filter_cons]
        simp [hk]
    · simp only [hlt, if_false]
      rw [List.filter_cons, List.filter_cons, ih ht.2]
      by_cases hp : p.1 = id <;> simp [hp]

/-- Registering on an ordered table keeps it ordered and appends, per key, the
new elements in registration order. -/
theorem foldl_register (id : Int) (regs : List (Nat × QObjectPtr)) :
    ∀ t0 : ButtonMap, t0.Pairwise (fun p q => p.1 ≤ q.1) →
      (regs.foldl (fun buttons r => registerNButton buttons r.1 r.2) t0).Pairwise
        (fun p q => p.1 ≤ q.1) ∧
      (regs.foldl (fun buttons r => registerNButton buttons r.1 r.2) t0).filter
          (fun q => decide (q.1 = id)) =
        t0.filter (fun q => decide (q.1 = id)) ++
          (regs.filter (fun r => decide (toIntKey r.1 = id))).map
            (fun r => (toIntKey r.1, r.2)) := by
  induction regs with
  | nil => intro t0 h0; simp [h0]
  | cons r rest ih =>
    intro t0 h0
    have hs := multimapInsert_sorted (toIntKey r.1) r.2 t0 h0
    have hf := filter_multimapInsert id (toIntKey r.1) r.2 t0 h0
    obtain ⟨ih1, ih2⟩ := ih (registerNButton t0 r.1 r.2) hs
    refine ⟨ih1, ?_⟩
    rw [List.foldl_cons, ih2]
    unfold registerNButton
    rw [hf, List.filter_cons]
    by_cases hk : toIntKey r.1 = id <;> simp [hk]

/-! ### The write loop -/

/-- Moving iterator and end position together does not change the loop. -/
theorem writeLoop_shift (state : Bool) (l : ButtonMap) :
    ∀ endPos it : Nat,
      writeLoop state (endPos + 1) (it + 1) l = writeLoop state endPos it l := by
  induction l with
  | nil => intro endPos it; rfl
  | cons p rest ih =>
    intro endPos it
    unfold writeLoop
    by_cases h : it + 1 = endPos
    · simp [h]
    · have h' : ¬ it + 1 + 1 = endPos + 1 := by omega
      simp only [ne_eq, h, h', not_false_eq_true, if_true, ih]

/-- From the first pair carrying `id`, the loop writes exactly the pairs
carrying `id` and stops at the upper bound. -/
theorem writeLoop_equal_range (state : Bool) (id : Int) (l : ButtonMap) :
    l.Pairwise (fun p q => p.1 ≤ q.1) → (∀ q ∈ l, id ≤ q.1) → (∃ q ∈ l, q.1 = id) →
      writeLoop state (upper_bound id l) 0 l =
        { writes := (l.filter (fun q => decide (q.1 = id))).map (fun q => (q.2, state)),
          outcome := KeypadOutcome.done } := by
  induction l with
  | nil => intro _ _ h; obtain ⟨q, hq, _⟩ := h; cases hq
  | cons p rest ih =>
    intro hs hge hex
    rw [List.pairwise_cons] at hs
    have hp : p.1 = id := by
      obtain ⟨q, hq, hqid⟩ := hex
      have h1 : id ≤ p.1 := hge p (List.mem_cons_self _ _)
      rcases List.mem_cons.mp hq with h | h
      · rw [← h]; exact hqid
      · have h2 : p.1 ≤ q.1 := hs.1 q h
        omega
    have hnlt : ¬ id < p.1 := by omega
    have hge' : ∀ q ∈ rest, id ≤ q.1 := fun q hq => hge q (List.mem_cons_of_mem _ hq)
    have hub_eq : upper_bound id (p :: rest) = upper_bound id rest + 1 := by
      simp [upper_bound, hnlt]
    rw [hub_eq]
    unfold writeLoop
    simp only [List.filter_cons, hp, decide_True, if_true, List.map_cons]
    by_cases hub : upper_bound id rest = 0
    · have hnil : rest.filter (fun q => decide (q.1 = id)) = [] := by
        cases rest with
        | nil => rfl
        | cons q rest' =>
          have hq : id < q.1 := by
            by_contra hcon
            simp [upper_bound, hcon] at hub
          apply filter_key_above
          intro q' hq'
          rcases List.mem_cons.mp hq' with h | h
          · rw [h]; exact hq
          · exact lt_of_lt_of_le hq ((List.pairwise_cons.mp hs.2).1 q' h)
      simp [hub, hnil]
    · have hex' : ∃ q ∈ rest, q.1 = id := by
        cases rest with
        | nil => simp [upper_bound] at hub
        | cons q rest' =>
          refine ⟨q, List.mem_cons_self _ _, ?_⟩
          have h1 : ¬ id < q.1 := by
            intro hcon
            simp [upper_bound, hcon] at hub
          have h2 : id ≤ q.1 := hge' q (List.mem_cons_self _ _)
          omega
      have hne : ¬ (0 + 1 = upper_bound id rest + 1) := by omega
      simp only [ne_eq, hne, not_false_eq_true, if_true]
      rw [writeLoop_shift state rest (upper_bound id rest) 0, ih hs.2 hge' hex']

/-- On an ordered table holding `id`, the lower bound is a real position and
the loop started there writes the pairs carrying `id`, in order. -/
theorem writeLoop_from_lower_bound (state : Bool) (id : Int) (t : ButtonMap) :
    t.Pairwise (fun p q => p.1 ≤ q.1) → (∃ q ∈ t, q.1 = id) →
      lower_bound id t ≠ t.length ∧
      writeLoop state (upper_bound id t) (lower_bound id t) (t.drop (lower_bound id t)) =
        { writes := (t.filter (fun q => decide (q.1 = id))).map (fun q => (q.2, state)),
          outcome := KeypadOutcome.done } := by
  induction t with
  | nil => intro _ h; obtain ⟨q, hq, _⟩ := h; cases hq
  | cons p rest ih =>
    intro hs hex
    by_cases hlt : p.1 < id
    · have hnlt : ¬ id < p.1 := by omega
      have hne : ¬ p.1 = id := by omega
      have hex' : ∃ q ∈ rest, q.1 = id := by
        obtain ⟨q, hq, hqid⟩ := hex
        rcases List.mem_cons.mp hq with h | h
        · rw [h] at hqid; exact absurd hqid hne
        · exact ⟨q, h, hqid⟩
      obtain ⟨ih1, ih2⟩ := ih (List.pairwise_cons.mp hs).2 hex'
      unfold lower_bound upper_bound
      simp only [hlt, hnlt, if_true, if_false, List.drop_succ_cons, List.length_cons,
        List.filter_cons, hne, decide_False]
      refine ⟨by omega, ?_⟩
      rw [writeLoop_shift, ih2]
      simp
    · have hge : ∀ q ∈ p :: rest, id ≤ q.1 := by
        intro q hq
        rcases List.mem_cons.mp hq with h | h
        · rw [h]; omega
        · have := (List.pairwise_cons.mp hs).1 q h
          omega
      have hlb : lower_bound id (p :: rest) = 0 := by simp [lower_bound, hlt]
      rw [hlb]
      refine ⟨by simp, ?_⟩
      rw [List.drop_zero]
      exact writeLoop_equal_range state id (p :: rest) hs hge hex

/-- The values one element receives when a list of elements is written. -/
theorem observed_map (h : QObjectPtr) (state : Bool) (l : List (Nat × QObjectPtr)) :
    observed h (l.map (fun r => (r.2, state))) =
      List.replicate (l.countP (fun r => decide (r.2 = h))) state := by
  induction l with
  | nil => rfl
  | cons r rest ih =>
    unfold observed at ih ⊢
    by_cases hr : r.2 = h
    · simp [List.filter_cons, hr, List.countP_cons, List.replicate_succ, ih]
    · simp [List.filter_cons, hr, List.countP_cons, ih]

/-! ### Routing a keypad event -/

/-- C4: `notifyKeypadStateChanged` on an in-range cell whose keymap id has one
or more registered elements writes `pressed = state` to every element
registered under that id, once per registration and in registration order,
writes to nothing else, and ends normally; so over a press followed by a
release every such element observes `true` (once per registration) and then
`false` (as often). -/
theorem notifyKeypad_registered (KEYPAD_ROWS KEYPAD_COLS : Int)
    (regs : List (Nat × QObjectPtr)) (row col : Int)
    (_hrow : 0 ≤ row) (hrow' : row < KEYPAD_ROWS) (_hcol : 0 ≤ col)
    (hcol' : col < KEYPAD_COLS)
    (hreg : ∃ r ∈ regs, toIntKey r.1 = keymapId KEYPAD_COLS row col) :
    (∀ state : Bool,
      notifyKeypadStateChanged KEYPAD_ROWS KEYPAD_COLS (registerAll regs) row col state =
        { writes := (regs.filter (fun r =>
              decide (toIntKey r.1 = keymapId KEYPAD_COLS row col))).map
            (fun r => (r.2, state)),
          outcome := KeypadOutcome.done }) ∧
    (∀ r ∈ regs, toIntKey r.1 = keymapId KEYPAD_COLS row col →
      ∃ n, 0 < n ∧
        observed r.2
          ((notifyKeypadStateChanged KEYPAD_ROWS KEYPAD_COLS (registerAll regs)
              row col true).writes ++
           (notifyKeypadStateChanged KEYPAD_ROWS KEYPAD_COLS (registerAll regs)
              row col false).writes) =
        List.replicate n true ++ List.replicate n false) := by
  obtain ⟨hsorted, hfilter⟩ :=
    foldl_register (keymapId KEYPAD_COLS row col) regs [] List.Pairwise.nil
  have hex : ∃ q ∈ registerAll regs, q.1 = keymapId KEYPAD_COLS row col := by
    obtain ⟨r, hr, hk⟩ := hreg
    have hmem : (toIntKey r.1, r.2) ∈
        (registerAll regs).filter (fun q => decide (q.1 = keymapId KEYPAD_COLS row col)) := by
      unfold registerAll
      rw [hfilter]
      simp only [List.filter_nil, List.nil_append, List.mem_map, List.mem_filter]
      exact ⟨r, ⟨hr, by simpa using hk⟩, rfl⟩
    rw [List.mem_filter] at hmem
    exact ⟨_, hmem.1, by simpa using hmem.2⟩
  have hmain : ∀ state : Bool,
      notifyKeypadStateChanged KEYPAD_ROWS KEYPAD_COLS (registerAll regs) row col state =
        { writes := (regs.filter (fun r =>
              decide (toIntKey r.1 = keymapId KEYPAD_COLS row col))).map
            (fun r => (r.2, state)),
          outcome := KeypadOutcome.done } := by
    intro state
    obtain ⟨hlb, hloop⟩ := writeLoop_from_lower_bound state
      (keymapId KEYPAD_COLS row col) (registerAll regs) hsorted hex
    unfold notifyKeypadStateChanged
    simp only [hrow', hcol', not_true_eq_false, if_false, hlb, hloop]
    unfold registerAll
    rw [hfilter]
    simp [List.map_map, Function.comp_def]
  refine ⟨hmain, ?_⟩
  intro r hr hk
  refine ⟨(regs.filter (fun r' =>
      decide (toIntKey r'.1 = keymapId KEYPAD_COLS row col))).countP
        (fun r' => decide (r'.2 = r.2)), ?_, ?_⟩
  · rw [List.countP_pos_iff]
    exact ⟨r, List.mem_filter.mpr ⟨hr, by simpa using hk⟩, by simp⟩
  · rw [hmain true, hmain false]
    simp only [observed, List.filter_append, List.map_append]
    have h1 := observed_map r.2 true (regs.filter (fun r' =>
      decide (toIntKey r'.1 = keymapId KEYPAD_COLS row col)))
    have h2 := observed_map r.2 false (regs.filter (fun r' =>
      decide (toIntKey r'.1 = keymapId KEYPAD_COLS row col)))
    unfold observed at h1 h2
    rw [h1, h2]

/-- Witness of C4 on an 8 by 11 grid: elements 42 and 43 are registered under
id 5 (cell (0, 5)), element 1 under id 7. -/
theorem notifyKeypad_registered_witness :
    notifyKeypadStateChanged 8 11 (registerAll [(5, 42), (7, 1), (5, 43)]) 0 5 true =
      { writes := [(42, true), (43, true)], outcome := KeypadOutcome.done } ∧
    ∃ n, 0 < n ∧
      observed 43
        ((notifyKeypadStateChanged 8 11 (registerAll [(5, 42), (7, 1), (5, 43)])
            0 5 true).writes ++
         (notifyKeypadStateChanged 8 11 (registerAll [(5, 42), (7, 1), (5, 43)])
            0 5 false).writes) =
      List.replicate n true ++ List.replicate n false :=
  ⟨(notifyKeypad_registered 8 11 [(5, 42), (7, 1), (5, 43)] 0 5
      (by decide) (by decide) (by decide) (by decide)
      ⟨(5, 42), by decide, by decide⟩).1 true,
   (notifyKeypad_registered 8 11 [(5, 42), (7, 1), (5, 43)] 0 5
      (by decide) (by decide) (by decide) (by decide)
      ⟨(5, 42), by decide, by decide⟩).2 (5, 43) (by decide) (by decide)⟩

/-- C3 fails on the code: with the only element (42) registered under id 5,
a press on cell (0, 0), whose id 0 has no element, is not dropped: the code
writes `pressed = true` to element 42 and then dereferences `buttons.end()`. -/
theorem notifyKeypad_unregistered_not_dropped :
    (¬ ∃ r ∈ [((5 : Nat), (42 : QObjectPtr))], toIntKey r.1 = keymapId 11 0 0) ∧
    notifyKeypadStateChanged 8 11 (registerAll [(5, 42)]) 0 0 true =
      { writes := [(42, true)], outcome := KeypadOutcome.undefinedBehaviour } := by
  refine ⟨by decide, by decide⟩

end Firebird
